import Mathlib

/-!
Shallow embedding of `TowerJetInput` (file `TowerJetInput.C` of the jet-input
module): conversion of calibrated calorimeter towers into vertex-corrected
four-momentum objects for jet finding.  Machine doubles are modelled by `F64`
(a finite real, NaN, or a signed infinity, with IEEE-style operations for the
operations the code performs); the per-event typed-data store is modelled as
name-keyed lookup functions; the two `assert` fatal paths are modelled as the
`Fatal` error variants of an `Except` result; the function-local
`static bool once` rate-limiter flag is threaded explicitly.
-/

/-- Value of a machine floating-point number as the code uses it: NaN,
positive infinity, negative infinity, or a finite value (idealised as a real
number). -/
inductive F64 where
  | nan : F64
  | inf : F64
  | ninf : F64
  | fin : ℝ → F64

namespace F64

/-- The `isnan` test used on the vertex z coordinate. -/
def isNan : F64 → Bool
  | nan => true
  | _ => false

/-- Whether the value is finite. -/
def isFin : F64 → Bool
  | fin _ => true
  | _ => false

/-- The real value of a finite `F64` (junk `0` on non-finite values; only
used together with `isFin`). -/
noncomputable def toReal : F64 → ℝ
  | fin x => x
  | _ => 0

/-- IEEE-style subtraction, as used for `z = z0 - vtxz`. -/
noncomputable def sub : F64 → F64 → F64
  | nan, _ => nan
  | _, nan => nan
  | inf, inf => nan
  | inf, _ => inf
  | ninf, ninf => nan
  | ninf, _ => ninf
  | fin _, inf => ninf
  | fin _, ninf => inf
  | fin a, fin b => fin (a - b)

/-- IEEE-style division, as used for `z/r` and `energy/cosh(eta)` (reals have
no signed zero, so a finite value divided by zero takes the sign of the
numerator). -/
noncomputable def div : F64 → F64 → F64
  | nan, _ => nan
  | _, nan => nan
  | inf, inf => nan
  | inf, ninf => nan
  | ninf, inf => nan
  | ninf, ninf => nan
  | inf, fin b => if b < 0 then ninf else inf
  | ninf, fin b => if b < 0 then inf else ninf
  | fin _, inf => fin 0
  | fin _, ninf => fin 0
  | fin a, fin b =>
    if b = 0 then (if a = 0 then nan else if a < 0 then ninf else inf)
    else fin (a / b)

/-- IEEE-style multiplication, as used for `pt*cos(phi)`, `pt*sin(phi)` and
`pt*sinh(eta)`. -/
noncomputable def mul : F64 → F64 → F64
  | nan, _ => nan
  | _, nan => nan
  | inf, inf => inf
  | inf, ninf => ninf
  | ninf, inf => ninf
  | ninf, ninf => inf
  | inf, fin b => if b = 0 then nan else if b < 0 then ninf else inf
  | ninf, fin b => if b = 0 then nan else if b < 0 then inf else ninf
  | fin a, inf => if a = 0 then nan else if a < 0 then ninf else inf
  | fin a, ninf => if a = 0 then nan else if a < 0 then inf else ninf
  | fin a, fin b => fin (a * b)

/-- `asinh` on doubles. -/
noncomputable def asinh : F64 → F64
  | nan => nan
  | inf => inf
  | ninf => ninf
  | fin x => fin (Real.arsinh x)

/-- `cosh` on doubles. -/
noncomputable def cosh : F64 → F64
  | nan => nan
  | inf => inf
  | ninf => inf
  | fin x => fin (Real.cosh x)

/-- `sinh` on doubles. -/
noncomputable def sinh : F64 → F64
  | nan => nan
  | inf => inf
  | ninf => ninf
  | fin x => fin (Real.sinh x)

end F64

/-- The C library `atan2(y, x)`, called on the (finite) tower-centre
coordinates. -/
noncomputable def atan2 (y x : ℝ) : ℝ :=
  if 0 < x then Real.arctan (y / x)
  else if x < 0 then
    (if 0 ≤ y then Real.arctan (y / x) + Real.pi else Real.arctan (y / x) - Real.pi)
  else if 0 < y then Real.pi / 2
  else if y < 0 then -(Real.pi / 2)
  else 0

/-- The jet source selector (`Jet::SRC`).  The eight tower selectors are named
in `TowerJetInput.C`.  Modelled from the spec: `Jet.h` itself is not among the
sources; per the spec the enumeration is a closed set also containing
non-tower source kinds (particles, tracks) that this module does not
recognise, represented here by `PARTICLE` and `TRACK`. -/
inductive Src where
  | CEMC_TOWER | HCALIN_TOWER | HCALOUT_TOWER | FEMC_TOWER | FHCAL_TOWER
  | CEMC_TOWER_SUB1 | HCALIN_TOWER_SUB1 | HCALOUT_TOWER_SUB1
  | PARTICLE | TRACK
  deriving DecidableEq

/-- One calorimeter tower: its id and calibrated energy.  Modelled from the
spec: `RawTower.h` is not among the sources; the spec's `TowerRecord` is
`{ id: integer, energy: float }`, and it keys both the geometry lookup and the
provenance tag by the same tower id. -/
structure RawTower where
  id : ℕ
  energy : ℝ

/-- Modelled from the spec: `RawTower::get_key` (used by the geometry lookup)
returns the same tower id as `RawTower::get_id` (used by the provenance
tag). -/
def RawTower.get_key (t : RawTower) : ℕ := t.id

/-- The geometry record of one tower: centre position and centre radius. -/
structure RawTowerGeom where
  center_x : ℝ
  center_y : ℝ
  center_z : ℝ
  center_radius : ℝ

/-- The tower container: the towers in native iteration order
(`getTowers()`). -/
structure RawTowerContainer where
  getTowers : List RawTower

/-- The geometry container: `get_tower_geometry(key)` returns the geometry
record for a tower key, or null (`none`). -/
structure RawTowerGeomContainer where
  get_tower_geometry : ℕ → Option RawTowerGeom

/-- One global vertex; only its z coordinate (`get_z()`, a float that may be
NaN) is used. -/
structure GlobalVertex where
  z : F64

/-- The vertex collection: its entries in native iteration order; each mapped
value is a pointer that may be null (`none`). -/
structure GlobalVertexMap where
  entries : List (Option GlobalVertex)

/-- `vertexmap->begin()->second`: the first stored vertex pointer, flattened.
(The C++ dereference of `begin()` on an empty map is undefined behaviour; the
model returns `none`, the same as a null first vertex.) -/
def GlobalVertexMap.firstVertex (m : GlobalVertexMap) : Option GlobalVertex :=
  m.entries.head?.bind id

/-- The per-event data store (`topNode`), keyed by node name exactly as
`findNode::getClass` is called in the code. -/
structure NodeTree where
  vertexmap : Option GlobalVertexMap
  towerNode : String → Option RawTowerContainer
  geomNode : String → Option RawTowerGeomContainer

/-- A produced jet-input object (`JetV1` through the `Jet` interface): the
four-momentum fields set by `set_px/set_py/set_pz/set_e` and the provenance
list filled by `insert_comp`. -/
structure Jet where
  px : F64
  py : F64
  pz : F64
  e : ℝ
  comp : List (Src × ℕ)

/-- The two `assert` fatal paths of `get_input`, modelled as error variants:
a missing `GlobalVertexMap` node, and a tower whose key has no geometry
entry. -/
inductive Fatal where
  | missingGlobalVertexMap : Fatal
  | missingTowerGeom : ℕ → Fatal
  deriving DecidableEq

/-- The selector-to-node-names branching chain of `get_input`: for each
recognised selector, the tower-container node name and the geometry-container
node name it fetches; `none` for the final `else` (unrecognised selector). -/
def selectNodes : Src → Option (String × String)
  | Src.CEMC_TOWER => some ("TOWER_CALIB_CEMC", "TOWERGEOM_CEMC")
  | Src.HCALIN_TOWER => some ("TOWER_CALIB_HCALIN", "TOWERGEOM_HCALIN")
  | Src.HCALOUT_TOWER => some ("TOWER_CALIB_HCALOUT", "TOWERGEOM_HCALOUT")
  | Src.FEMC_TOWER => some ("TOWER_CALIB_FEMC", "TOWERGEOM_FEMC")
  | Src.FHCAL_TOWER => some ("TOWER_CALIB_FHCAL", "TOWERGEOM_FHCAL")
  | Src.CEMC_TOWER_SUB1 => some ("TOWER_CALIB_CEMC_RETOWER_SUB1", "TOWERGEOM_HCALIN")
  | Src.HCALIN_TOWER_SUB1 => some ("TOWER_CALIB_HCALIN_SUB1", "TOWERGEOM_HCALIN")
  | Src.HCALOUT_TOWER_SUB1 => some ("TOWER_CALIB_HCALOUT_SUB1", "TOWERGEOM_HCALOUT")
  | _ => none

/-- The loop body of `get_input` for one tower with its geometry record:
```
double r = tower_geom->get_center_radius();
double phi = atan2(tower_geom->get_center_y(), tower_geom->get_center_x());
double z0 = tower_geom->get_center_z();
double z = z0 - vtxz;
double eta = asinh(z/r);
double pt = tower->get_energy() / cosh(eta);
double px = pt * cos(phi);  double py = pt * sin(phi);  double pz = pt * sinh(eta);
```
followed by `new JetV1`, the four field setters, and
`insert_comp(_input, tower->get_id())` on the fresh (empty) provenance
list. -/
noncomputable def towerToJet (input : Src) (vtxz : F64) (tower : RawTower)
    (tower_geom : RawTowerGeom) : Jet :=
  let r : ℝ := tower_geom.center_radius
  let phi : ℝ := atan2 tower_geom.center_y tower_geom.center_x
  let z0 : ℝ := tower_geom.center_z
  let z : F64 := F64.sub (F64.fin z0) vtxz
  let eta : F64 := F64.asinh (F64.div z (F64.fin r))
  let pt : F64 := F64.div (F64.fin tower.energy) (F64.cosh eta)
  { px := F64.mul pt (F64.fin (Real.cos phi))
    py := F64.mul pt (F64.fin (Real.sin phi))
    pz := F64.mul pt (F64.sinh eta)
    e := tower.energy
    comp := [(input, tower.id)] }

/-- The tower loop of `get_input`: each tower's geometry is looked up by its
key; a null geometry pointer hits `assert(tower_geom)` (fatal); otherwise the
converted jet is appended, in iteration order. -/
noncomputable def buildJets (input : Src) (geom : RawTowerGeomContainer) (vtxz : F64) :
    List RawTower → Except Fatal (List Jet)
  | [] => Except.ok []
  | tower :: rest =>
    match geom.get_tower_geometry tower.get_key with
    | none => Except.error (Fatal.missingTowerGeom tower.get_key)
    | some tower_geom =>
      Except.map (fun js => towerToJet input vtxz tower tower_geom :: js)
        (buildJets input geom vtxz rest)

/-- What one call to `get_input` produces: the returned vector (or the fatal
abort), the static `once` flag after the call, and whether the NaN-vertex
diagnostic was printed during the call. -/
structure GetInputResult where
  result : Except Fatal (List Jet)
  once : Bool
  nanDiag : Bool

/-- `TowerJetInput::get_input(topNode)`, with the member selector `input`, the
data store `topNode` and the current value of the function-local
`static bool once` flag as explicit arguments.  Control flow in source order:
fetch `GlobalVertexMap` (absent: `assert`, fatal); resolve the selector to the
two node names (unrecognised: empty result); fetch the two containers (either
absent: empty result); read the first vertex pointer (null: empty result);
drop all towers if its z is NaN (printing the diagnostic only while `once` is
still set); otherwise run the tower loop. -/
noncomputable def get_input (input : Src) (topNode : NodeTree) (once : Bool) :
    GetInputResult :=
  match topNode.vertexmap with
  | none => { result := Except.error Fatal.missingGlobalVertexMap, once := once, nanDiag := false }
  | some vertexmap =>
    match selectNodes input with
    | none => { result := Except.ok [], once := once, nanDiag := false }
    | some (towerName, geomName) =>
      match topNode.towerNode towerName, topNode.geomNode geomName with
      | some towers, some geom =>
        match vertexmap.firstVertex with
        | none => { result := Except.ok [], once := once, nanDiag := false }
        | some vtx =>
          if vtx.z.isNan then
            { result := Except.ok [], once := false, nanDiag := once }
          else
            { result := buildJets input geom vtx.z towers.getTowers,
              once := once, nanDiag := false }
      | _, _ => { result := Except.ok [], once := once, nanDiag := false }

/-- A sequence of `get_input` calls within one process, threading the static
`once` flag from call to call. -/
noncomputable def runGetInput : List (Src × NodeTree) → Bool → List GetInputResult
  | [], _ => []
  | c :: cs, once =>
    let r := get_input c.1 c.2 once
    r :: runGetInput cs r.once
/-! ### Concrete instances used in witnesses and counterexamples -/

/-- Example geometry record: tower centre `(100, 0, 50)`, centre radius
`100`. -/
noncomputable def gEx : RawTowerGeom := ⟨100, 0, 50, 100⟩

/-- Example tower with id 1 and energy 10. -/
noncomputable def tEx1 : RawTower := ⟨1, 10⟩

/-- Example tower with id 2 and negative energy -3. -/
noncomputable def tEx2 : RawTower := ⟨2, -3⟩

/-- Store holding the CEMC tower and geometry containers (two towers, every
key having a geometry entry) and one vertex with the given z. -/
noncomputable def treeEx (vz : F64) : NodeTree :=
  { vertexmap := some ⟨[some ⟨vz⟩]⟩
    towerNode := fun n => if n = "TOWER_CALIB_CEMC" then some ⟨[tEx1, tEx2]⟩ else none
    geomNode := fun n => if n = "TOWERGEOM_CEMC" then some ⟨fun _ => some gEx⟩ else none }

/-- Store with no `GlobalVertexMap` node at all. -/
def noVtxTree : NodeTree := ⟨none, fun _ => none, fun _ => none⟩

/-- Store whose vertex collection is present and non-empty, with a null first
vertex pointer. -/
def nullVtxTree : NodeTree := ⟨some ⟨[none]⟩, fun _ => none, fun _ => none⟩

/-- Store like `treeEx` but whose geometry container has no entry for any
key. -/
noncomputable def missTree : NodeTree :=
  { vertexmap := some ⟨[some ⟨F64.fin 0⟩]⟩
    towerNode := fun n => if n = "TOWER_CALIB_CEMC" then some ⟨[tEx1, tEx2]⟩ else none
    geomNode := fun n => if n = "TOWERGEOM_CEMC" then some ⟨fun _ => none⟩ else none }

/-! ### Branch lemmas for `get_input` -/

lemma get_input_no_vertexmap (s : Src) (t : NodeTree) (b : Bool)
    (h : t.vertexmap = none) :
    get_input s t b
      = ⟨Except.error Fatal.missingGlobalVertexMap, b, false⟩ := by
  simp [get_input, h]

lemma get_input_run (s : Src) (t : NodeTree) (b : Bool) (tn gn : String)
    (vm : GlobalVertexMap) (tc : RawTowerContainer) (gc : RawTowerGeomContainer)
    (vtx : GlobalVertex)
    (hvm : t.vertexmap = some vm) (hsel : selectNodes s = some (tn, gn))
    (htc : t.towerNode tn = some tc) (hgc : t.geomNode gn = some gc)
    (hfv : vm.firstVertex = some vtx) (hnan : vtx.z.isNan = false) :
    get_input s t b = ⟨buildJets s gc vtx.z tc.getTowers, b, false⟩ := by
  simp [get_input, hvm, hsel, htc, hgc, hfv, hnan]

/-- A NaN first vertex always yields the empty vector, whatever the selector
and the containers. -/
lemma get_input_nan (s : Src) (t : NodeTree) (b : Bool)
    (vm : GlobalVertexMap) (vtx : GlobalVertex)
    (hvm : t.vertexmap = some vm) (hfv : vm.firstVertex = some vtx)
    (hnan : vtx.z.isNan = true) :
    (get_input s t b).result = Except.ok [] := by
  rcases hsel : selectNodes s with _ | ⟨tn, gn⟩
  · simp [get_input, hvm, hsel]
  rcases htc : t.towerNode tn with _ | tc <;> rcases hgc : t.geomNode gn with _ | gc <;>
    simp [get_input, hvm, hsel, htc, hgc, hfv, hnan]

/-- Every empty-result path taken before the NaN test (unknown selector,
missing container, null first vertex) leaves the `once` flag unchanged and
prints nothing. -/
lemma get_input_nullvtx (s : Src) (t : NodeTree) (b : Bool)
    (vm : GlobalVertexMap)
    (hvm : t.vertexmap = some vm) (hfv : vm.firstVertex = none) :
    get_input s t b = ⟨Except.ok [], b, false⟩ := by
  rcases hsel : selectNodes s with _ | ⟨tn, gn⟩
  · simp [get_input, hvm, hsel]
  rcases htc : t.towerNode tn with _ | tc <;> rcases hgc : t.geomNode gn with _ | gc <;>
    simp [get_input, hvm, hsel, htc, hgc, hfv]

lemma get_input_unknown (s : Src) (t : NodeTree) (b : Bool)
    (vm : GlobalVertexMap)
    (hvm : t.vertexmap = some vm) (hsel : selectNodes s = none) :
    get_input s t b = ⟨Except.ok [], b, false⟩ := by
  simp [get_input, hvm, hsel]

/-! ### C6, C9, C10 -/

/-- C6: for every event store in which the vertex collection
(`GlobalVertexMap`) is absent, `get_input` takes the fatal path (the
`assert(vertexmap)` abort, modelled as the `missingGlobalVertexMap` error)
rather than returning a result, for every selector value. -/
theorem c6_missing_vertexmap_fatal (s : Src) (t : NodeTree) (b : Bool)
    (h : t.vertexmap = none) :
    (get_input s t b).result = Except.error Fatal.missingGlobalVertexMap := by
  rw [get_input_no_vertexmap s t b h]

theorem c6_missing_vertexmap_fatal_witness :
    (get_input Src.HCALIN_TOWER noVtxTree true).result
      = Except.error Fatal.missingGlobalVertexMap :=
  c6_missing_vertexmap_fatal Src.HCALIN_TOWER noVtxTree true rfl

/-- C9: the returned sequence of `get_input` is a function of the selector and
the event store alone — it does not depend on the process-wide `once` flag, so
two calls with identical inputs (same containers, same vertex), in any two
process states, return numerically identical sequences, element by element and
in the same order. -/
theorem c9_deterministic (s : Src) (t : NodeTree) (b b' : Bool) :
    (get_input s t b).result = (get_input s t b').result := by
  rcases hvm : t.vertexmap with _ | vm
  · simp [get_input, hvm]
  rcases hsel : selectNodes s with _ | ⟨tn, gn⟩
  · simp [get_input, hvm, hsel]
  rcases htc : t.towerNode tn with _ | tc <;> rcases hgc : t.geomNode gn with _ | gc
  · simp [get_input, hvm, hsel, htc, hgc]
  · simp [get_input, hvm, hsel, htc, hgc]
  · simp [get_input, hvm, hsel, htc, hgc]
  rcases hfv : vm.firstVertex with _ | vtx
  · simp [get_input, hvm, hsel, htc, hgc, hfv]
  rcases hnan : vtx.z.isNan <;>
    simp [get_input, hvm, hsel, htc, hgc, hfv, hnan]

/-- C10: for every event in which the vertex collection is present and
non-empty but its first entry is a null vertex pointer, `get_input` returns
the empty sequence: no abort (an `ok` result) and no diagnostic message, with
the `once` flag unchanged. -/
theorem c10_null_first_vertex_empty (s : Src) (t : NodeTree) (b : Bool)
    (vm : GlobalVertexMap)
    (hvm : t.vertexmap = some vm) (hnull : vm.entries.head? = some none) :
    (get_input s t b).result = Except.ok []
      ∧ (get_input s t b).nanDiag = false
      ∧ (get_input s t b).once = b := by
  have hfv : vm.firstVertex = none := by
    unfold GlobalVertexMap.firstVertex
    rw [hnull]
    rfl
  rw [get_input_nullvtx s t b vm hvm hfv]
  exact ⟨rfl, rfl, rfl⟩

theorem c10_null_first_vertex_empty_witness :
    (get_input Src.FEMC_TOWER nullVtxTree true).result = Except.ok []
      ∧ (get_input Src.FEMC_TOWER nullVtxTree true).nanDiag = false :=
  ⟨(c10_null_first_vertex_empty Src.FEMC_TOWER nullVtxTree true ⟨[none]⟩ rfl rfl).1,
   (c10_null_first_vertex_empty Src.FEMC_TOWER nullVtxTree true ⟨[none]⟩ rfl rfl).2.1⟩

/-! ### C3 (corrected) -/

/-- C3 counterexample: with an unrecognised selector but no `GlobalVertexMap`
node in the store, `get_input` hits `assert(vertexmap)` (the fatal path), so
it does not "return the empty sequence without crashing for every event store
state". -/
theorem c3_counterexample :
    (get_input Src.PARTICLE noVtxTree true).result
        = Except.error Fatal.missingGlobalVertexMap
      ∧ ¬ (get_input Src.PARTICLE noVtxTree true).result = Except.ok [] := by
  refine ⟨rfl, fun h => ?_⟩
  rw [show (get_input Src.PARTICLE noVtxTree true).result
      = Except.error Fatal.missingGlobalVertexMap from rfl] at h
  exact Except.noConfusion h

/-- C3 (amended): for every selector value that is not one of the recognised
subdetector sources, and for every event store state in which the vertex
collection is present, `get_input` returns the empty sequence without
crashing, prints nothing, and performs no tower-container or
geometry-container lookup (its outcome is unchanged under arbitrary
replacement of the tower-node and geometry-node lookup tables). -/
theorem c3_unknown_selector_empty (s : Src) (t : NodeTree) (b : Bool)
    (vm : GlobalVertexMap)
    (hsel : selectNodes s = none) (hvm : t.vertexmap = some vm) :
    (get_input s t b).result = Except.ok []
      ∧ (get_input s t b).nanDiag = false
      ∧ (get_input s t b).once = b
      ∧ ∀ tns gns,
          get_input s { vertexmap := t.vertexmap, towerNode := tns, geomNode := gns } b
            = get_input s t b := by
  rw [get_input_unknown s t b vm hvm hsel]
  refine ⟨rfl, rfl, rfl, fun tns gns => ?_⟩
  rw [get_input_unknown s { vertexmap := t.vertexmap, towerNode := tns, geomNode := gns }
    b vm hvm hsel]

theorem c3_unknown_selector_empty_witness :
    (get_input Src.PARTICLE (treeEx (F64.fin 0)) true).result = Except.ok []
      ∧ (get_input Src.PARTICLE (treeEx (F64.fin 0)) true).nanDiag = false :=
  ⟨(c3_unknown_selector_empty Src.PARTICLE (treeEx (F64.fin 0)) true ⟨[some ⟨F64.fin 0⟩]⟩
      rfl rfl).1,
   (c3_unknown_selector_empty Src.PARTICLE (treeEx (F64.fin 0)) true ⟨[some ⟨F64.fin 0⟩]⟩
      rfl rfl).2.1⟩

/-! ### C2 (corrected) -/

/-- C2 counterexample: a vertex z of positive infinity is not finite, yet with
two towers in the container `get_input` returns a sequence of length 2, not
the empty sequence — the code tests `isnan(vtxz)` only, so an infinite vertex
z is not rejected. -/
theorem c2_counterexample :
    Except.map List.length (get_input Src.CEMC_TOWER (treeEx F64.inf) true).result
        = Except.ok 2
      ∧ ¬ (get_input Src.CEMC_TOWER (treeEx F64.inf) true).result = Except.ok []
      ∧ F64.inf.isFin = false ∧ F64.inf.isNan = false := by
  refine ⟨rfl, fun h => ?_, rfl, rfl⟩
  have h2 : Except.map List.length (get_input Src.CEMC_TOWER (treeEx F64.inf) true).result
      = Except.ok 2 := rfl
  rw [h] at h2
  exact absurd h2 (by simp [Except.map])

/-- C2 (amended): for every event in which the resolved vertex z-coordinate is
NaN, `get_input` returns the empty sequence, for every content of the tower
container; a vertex z of positive or negative infinity is not treated as
invalid (only `isnan` is tested). -/
theorem c2_nan_vertex_empty (s : Src) (t : NodeTree) (b : Bool)
    (vm : GlobalVertexMap) (vtx : GlobalVertex)
    (hvm : t.vertexmap = some vm) (hfv : vm.firstVertex = some vtx)
    (hnan : vtx.z.isNan = true) :
    (get_input s t b).result = Except.ok [] :=
  get_input_nan s t b vm vtx hvm hfv hnan

theorem c2_nan_vertex_empty_witness :
    (get_input Src.CEMC_TOWER (treeEx F64.nan) true).result = Except.ok [] :=
  c2_nan_vertex_empty Src.CEMC_TOWER (treeEx F64.nan) true ⟨[some ⟨F64.nan⟩]⟩ ⟨F64.nan⟩
    rfl rfl rfl

/-! ### The tower loop: length, provenance, and the missing-geometry abort -/

/-- Whether the call produced a vector at all (as opposed to the fatal
abort). -/
def exceptIsOk : Except Fatal (List Jet) → Bool
  | Except.ok _ => true
  | Except.error _ => false

/-- When every tower key has a geometry entry, the loop succeeds and produces
one jet per tower, in order, each carrying exactly the provenance entry
`(selector, towerId)` of its tower. -/
lemma buildJets_ok (s : Src) (gc : RawTowerGeomContainer) (vz : F64) :
    ∀ ts : List RawTower,
      (∀ tw ∈ ts, (gc.get_tower_geometry tw.get_key).isSome = true) →
      ∃ l, buildJets s gc vz ts = Except.ok l
        ∧ l.map Jet.comp = ts.map (fun tw => [(s, tw.id)])
        ∧ l.length = ts.length := by
  intro ts
  induction ts with
  | nil => exact fun _ => ⟨[], rfl, rfl, rfl⟩
  | cons t ts ih =>
    intro hall
    obtain ⟨l, hl, hcomp, hlen⟩ := ih (fun tw hw => hall tw (List.mem_cons_of_mem t hw))
    have ht := hall t (List.mem_cons_self t ts)
    rcases hg : gc.get_tower_geometry t.get_key with _ | g
    · rw [hg] at ht
      exact absurd ht (by simp)
    refine ⟨towerToJet s vz t g :: l, ?_, ?_, ?_⟩
    · unfold buildJets
      rw [hg, hl]
      rfl
    · rw [List.map_cons, List.map_cons, hcomp]
      rfl
    · rw [List.length_cons, List.length_cons, hlen]

/-- The first tower key, in iteration order, whose geometry lookup fails. -/
def firstMissingGeom (gc : RawTowerGeomContainer) : List RawTower → ℕ
  | [] => 0
  | t :: ts =>
    match gc.get_tower_geometry t.get_key with
    | none => t.get_key
    | some _ => firstMissingGeom gc ts

/-- If some tower in the list has no geometry entry, the loop aborts with the
missing-geometry fatal error for the first such key. -/
lemma buildJets_missing (s : Src) (gc : RawTowerGeomContainer) (vz : F64) :
    ∀ ts : List RawTower,
      (∃ tw ∈ ts, gc.get_tower_geometry tw.get_key = none) →
      buildJets s gc vz ts
        = Except.error (Fatal.missingTowerGeom (firstMissingGeom gc ts)) := by
  intro ts
  induction ts with
  | nil =>
    rintro ⟨tw, hmem, -⟩
    exact absurd hmem (List.not_mem_nil tw)
  | cons t ts ih =>
    rintro ⟨tw, hmem, hnone⟩
    rcases hg : gc.get_tower_geometry t.get_key with _ | g
    · unfold buildJets firstMissingGeom
      rw [hg]
    · have htw : tw ∈ ts := by
        rcases List.mem_cons.mp hmem with h | h
        · rw [h, hg] at hnone
          exact Option.noConfusion hnone
        · exact h
      have hrec := ih ⟨tw, htw, hnone⟩
      unfold buildJets firstMissingGeom
      rw [hg, hrec]
      rfl

/-! ### C4, C5, C7 -/

/-- C4: for every recognised selector whose tower and geometry containers are
both present, with every tower key having a geometry entry and a finite
resolved vertex z, the output sequence has exactly one entry per tower in the
container — every tower is converted, regardless of the sign or magnitude of
its energy, with no filtering. -/
theorem c4_output_length (s : Src) (t : NodeTree) (b : Bool) (tn gn : String)
    (vm : GlobalVertexMap) (tc : RawTowerContainer) (gc : RawTowerGeomContainer)
    (vtx : GlobalVertex) (v : ℝ)
    (hsel : selectNodes s = some (tn, gn)) (hvm : t.vertexmap = some vm)
    (htc : t.towerNode tn = some tc) (hgc : t.geomNode gn = some gc)
    (hfv : vm.firstVertex = some vtx) (hz : vtx.z = F64.fin v)
    (hall : ∀ tw ∈ tc.getTowers, (gc.get_tower_geometry tw.get_key).isSome = true) :
    Except.map List.length (get_input s t b).result
      = Except.ok tc.getTowers.length := by
  have hnan : vtx.z.isNan = false := by rw [hz]; rfl
  rw [get_input_run s t b tn gn vm tc gc vtx hvm hsel htc hgc hfv hnan]
  obtain ⟨l, hl, -, hlen⟩ := buildJets_ok s gc vtx.z tc.getTowers hall
  show Except.map List.length (buildJets s gc vtx.z tc.getTowers) = _
  rw [hl]
  show Except.ok l.length = _
  rw [hlen]

theorem c4_output_length_witness :
    Except.map List.length (get_input Src.CEMC_TOWER (treeEx (F64.fin 0)) true).result
      = Except.ok 2 :=
  c4_output_length Src.CEMC_TOWER (treeEx (F64.fin 0)) true
    "TOWER_CALIB_CEMC" "TOWERGEOM_CEMC" ⟨[some ⟨F64.fin 0⟩]⟩ ⟨[tEx1, tEx2]⟩
    ⟨fun _ => some gEx⟩ ⟨F64.fin 0⟩ 0 rfl rfl rfl rfl rfl rfl (fun _ _ => rfl)

/-- C5: under the same success conditions, the provenance lists of the output
sequence are exactly the `(selector, towerId)` singletons of the towers, in
enumeration order: the i-th output carries exactly one provenance entry, equal
to `(selector, towerId)` of the i-th enumerated tower. -/
theorem c5_provenance_order (s : Src) (t : NodeTree) (b : Bool) (tn gn : String)
    (vm : GlobalVertexMap) (tc : RawTowerContainer) (gc : RawTowerGeomContainer)
    (vtx : GlobalVertex) (v : ℝ)
    (hsel : selectNodes s = some (tn, gn)) (hvm : t.vertexmap = some vm)
    (htc : t.towerNode tn = some tc) (hgc : t.geomNode gn = some gc)
    (hfv : vm.firstVertex = some vtx) (hz : vtx.z = F64.fin v)
    (hall : ∀ tw ∈ tc.getTowers, (gc.get_tower_geometry tw.get_key).isSome = true) :
    Except.map (List.map Jet.comp) (get_input s t b).result
      = Except.ok (tc.getTowers.map (fun tw => [(s, tw.id)])) := by
  have hnan : vtx.z.isNan = false := by rw [hz]; rfl
  rw [get_input_run s t b tn gn vm tc gc vtx hvm hsel htc hgc hfv hnan]
  obtain ⟨l, hl, hcomp, -⟩ := buildJets_ok s gc vtx.z tc.getTowers hall
  show Except.map (List.map Jet.comp) (buildJets s gc vtx.z tc.getTowers) = _
  rw [hl]
  show Except.ok (l.map Jet.comp) = _
  rw [hcomp]

theorem c5_provenance_order_witness :
    Except.map (List.map Jet.comp)
        (get_input Src.CEMC_TOWER (treeEx (F64.fin 0)) true).result
      = Except.ok [[(Src.CEMC_TOWER, 1)], [(Src.CEMC_TOWER, 2)]] :=
  c5_provenance_order Src.CEMC_TOWER (treeEx (F64.fin 0)) true
    "TOWER_CALIB_CEMC" "TOWERGEOM_CEMC" ⟨[some ⟨F64.fin 0⟩]⟩ ⟨[tEx1, tEx2]⟩
    ⟨fun _ => some gEx⟩ ⟨F64.fin 0⟩ 0 rfl rfl rfl rfl rfl rfl (fun _ _ => rfl)

/-- C7: whenever a tower present in the tower container has no corresponding
entry in the geometry container (on an otherwise reachable loop: recognised
selector, containers present, first vertex non-null with non-NaN z),
`get_input` takes the fatal path — the `assert(tower_geom)` abort, modelled as
the missing-geometry error for the first such key — rather than skipping the
tower or returning a partial or empty sequence. -/
theorem c7_missing_geometry_fatal (s : Src) (t : NodeTree) (b : Bool) (tn gn : String)
    (vm : GlobalVertexMap) (tc : RawTowerContainer) (gc : RawTowerGeomContainer)
    (vtx : GlobalVertex) (tw : RawTower)
    (hsel : selectNodes s = some (tn, gn)) (hvm : t.vertexmap = some vm)
    (htc : t.towerNode tn = some tc) (hgc : t.geomNode gn = some gc)
    (hfv : vm.firstVertex = some vtx) (hnan : vtx.z.isNan = false)
    (htw : tw ∈ tc.getTowers)
    (hmiss : gc.get_tower_geometry tw.get_key = none) :
    (get_input s t b).result
        = Except.error (Fatal.missingTowerGeom (firstMissingGeom gc tc.getTowers))
      ∧ exceptIsOk (get_input s t b).result = false := by
  rw [get_input_run s t b tn gn vm tc gc vtx hvm hsel htc hgc hfv hnan]
  have h := buildJets_missing s gc vtx.z tc.getTowers ⟨tw, htw, hmiss⟩
  constructor
  · show buildJets s gc vtx.z tc.getTowers = _
    rw [h]
  · show exceptIsOk (buildJets s gc vtx.z tc.getTowers) = false
    rw [h]
    rfl

theorem c7_missing_geometry_fatal_witness :
    (get_input Src.CEMC_TOWER missTree true).result
        = Except.error (Fatal.missingTowerGeom 1)
      ∧ exceptIsOk (get_input Src.CEMC_TOWER missTree true).result = false :=
  c7_missing_geometry_fatal Src.CEMC_TOWER missTree true
    "TOWER_CALIB_CEMC" "TOWERGEOM_CEMC" ⟨[some ⟨F64.fin 0⟩]⟩ ⟨[tEx1, tEx2]⟩
    ⟨fun _ => none⟩ ⟨F64.fin 0⟩ tEx1 rfl rfl rfl rfl rfl rfl
    (List.mem_cons_self tEx1 [tEx2]) rfl

/-! ### C8: the process-wide diagnostic rate limiter -/

/-- Flag behaviour of one call: either the call does not take the NaN-vertex
branch (the `once` flag is left unchanged and no diagnostic is printed), or it
does (the flag is cleared and the diagnostic is printed exactly if the flag
was still set). -/
lemma get_input_once_nanDiag (s : Src) (t : NodeTree) (b : Bool) :
    ((get_input s t b).once = b ∧ (get_input s t b).nanDiag = false)
      ∨ ((get_input s t b).once = false ∧ (get_input s t b).nanDiag = b) := by
  rcases hvm : t.vertexmap with _ | vm
  · left
    rw [get_input_no_vertexmap s t b hvm]
    exact ⟨rfl, rfl⟩
  rcases hsel : selectNodes s with _ | ⟨tn, gn⟩
  · left
    rw [get_input_unknown s t b vm hvm hsel]
    exact ⟨rfl, rfl⟩
  rcases htc : t.towerNode tn with _ | tc <;> rcases hgc : t.geomNode gn with _ | gc
  · left
    simp [get_input, hvm, hsel, htc, hgc]
  · left
    simp [get_input, hvm, hsel, htc, hgc]
  · left
    simp [get_input, hvm, hsel, htc, hgc]
  rcases hfv : vm.firstVertex with _ | vtx
  · left
    simp [get_input, hvm, hsel, htc, hgc, hfv]
  rcases hnan : vtx.z.isNan
  · left
    simp [get_input, hvm, hsel, htc, hgc, hfv, hnan]
  · right
    simp [get_input, hvm, hsel, htc, hgc, hfv, hnan]

/-- Once the `once` flag is cleared, no later call in the run ever prints the
diagnostic again. -/
lemma runGetInput_count_false (cs : List (Src × NodeTree)) :
    List.countP (fun r => r.nanDiag) (runGetInput cs false) = 0 := by
  induction cs with
  | nil => rfl
  | cons c cs ih =>
    rcases get_input_once_nanDiag c.1 c.2 false with ⟨h1, h2⟩ | ⟨h1, h2⟩ <;>
      simp [runGetInput, List.countP_cons, h1, h2, ih]

/-- Starting from a set `once` flag, at most one call of the whole run prints
the diagnostic. -/
lemma runGetInput_count_true (cs : List (Src × NodeTree)) :
    List.countP (fun r => r.nanDiag) (runGetInput cs true) ≤ 1 := by
  induction cs with
  | nil => simp [runGetInput]
  | cons c cs ih =>
    rcases get_input_once_nanDiag c.1 c.2 true with ⟨h1, h2⟩ | ⟨h1, h2⟩
    · simpa [runGetInput, List.countP_cons, h1, h2] using ih
    · simp [runGetInput, List.countP_cons, h1, h2, runGetInput_count_false]

/-- C8: across any sequence of `get_input` calls within one process (the
`once` flag starts set and is threaded from call to call), the NaN-vertex
diagnostic is emitted on at most one call; and the returned sequence is empty
on every NaN-vertex occurrence, whatever the state of the flag. -/
theorem c8_diag_rate_limited :
    (∀ cs : List (Src × NodeTree),
        List.countP (fun r => r.nanDiag) (runGetInput cs true) ≤ 1)
      ∧ ∀ (s : Src) (t : NodeTree) (b : Bool) (vm : GlobalVertexMap)
          (vtx : GlobalVertex),
          t.vertexmap = some vm → vm.firstVertex = some vtx →
          vtx.z.isNan = true → (get_input s t b).result = Except.ok [] :=
  ⟨runGetInput_count_true,
   fun s t b vm vtx hvm hfv hnan => get_input_nan s t b vm vtx hvm hfv hnan⟩

theorem c8_diag_rate_limited_witness :
    List.countP (fun r => r.nanDiag)
        (runGetInput
          [(Src.CEMC_TOWER, treeEx F64.nan), (Src.CEMC_TOWER, treeEx F64.nan)] true)
        ≤ 1
      ∧ (get_input Src.CEMC_TOWER (treeEx F64.nan) false).result = Except.ok [] :=
  ⟨c8_diag_rate_limited.1
      [(Src.CEMC_TOWER, treeEx F64.nan), (Src.CEMC_TOWER, treeEx F64.nan)],
   c8_diag_rate_limited.2 Src.CEMC_TOWER (treeEx F64.nan) false ⟨[some ⟨F64.nan⟩]⟩
      ⟨F64.nan⟩ rfl rfl rfl⟩

/-! ### C1: the kinematics transform -/

/-- On a finite vertex z and a non-zero centre radius, the loop body computes
exactly the spec's formulas, as finite values. -/
lemma towerToJet_fin (input : Src) (tower : RawTower) (g : RawTowerGeom) (v : ℝ)
    (hr : g.center_radius ≠ 0) :
    towerToJet input (F64.fin v) tower g
      = { px := F64.fin (tower.energy
              / Real.cosh (Real.arsinh ((g.center_z - v) / g.center_radius))
              * Real.cos (atan2 g.center_y g.center_x))
          py := F64.fin (tower.energy
              / Real.cosh (Real.arsinh ((g.center_z - v) / g.center_radius))
              * Real.sin (atan2 g.center_y g.center_x))
          pz := F64.fin (tower.energy
              / Real.cosh (Real.arsinh ((g.center_z - v) / g.center_radius))
              * Real.sinh (Real.arsinh ((g.center_z - v) / g.center_radius)))
          e := tower.energy
          comp := [(input, tower.id)] } := by
  have hc : Real.cosh (Real.arsinh ((g.center_z - v) / g.center_radius)) ≠ 0 :=
    (Real.cosh_pos _).ne'
  simp only [towerToJet, F64.sub, F64.div, F64.asinh, F64.cosh, F64.sinh, F64.mul,
    if_neg hr, if_neg hc]

/-- The spec's worked example: energy 10, tower centre `(100, 0, 50)`, centre
radius 100, vertex z = 0. -/
noncomputable def exampleJet : Jet :=
  towerToJet Src.CEMC_TOWER (F64.fin 0) ⟨0, 10⟩ ⟨100, 0, 50, 100⟩

lemma exampleJet_eq :
    exampleJet.px = F64.fin (10 / Real.sqrt (5/4))
      ∧ exampleJet.py = F64.fin 0
      ∧ exampleJet.pz = F64.fin (10 / Real.sqrt (5/4) * (1/2))
      ∧ exampleJet.e = 10 := by
  have hphi : atan2 (0:ℝ) 100 = 0 := by
    unfold atan2
    rw [if_pos (show (0:ℝ) < 100 by norm_num)]
    norm_num [Real.arctan_zero]
  have harg : ((50:ℝ) - 0) / 100 = 1/2 := by norm_num
  have hcosh : Real.cosh (Real.arsinh ((1:ℝ)/2)) = Real.sqrt (5/4) := by
    rw [Real.cosh_arsinh]
    norm_num
  have hsinh : Real.sinh (Real.arsinh ((1:ℝ)/2)) = 1/2 := Real.sinh_arsinh _
  have h := towerToJet_fin Src.CEMC_TOWER ⟨0, 10⟩ ⟨100, 0, 50, 100⟩ 0
    (show (100:ℝ) ≠ 0 by norm_num)
  unfold exampleJet
  rw [h]
  refine ⟨?_, ?_, ?_, rfl⟩
  · show F64.fin (10 / Real.cosh (Real.arsinh (((50:ℝ) - 0) / 100))
        * Real.cos (atan2 (0:ℝ) 100)) = _
    rw [harg, hphi, hcosh, Real.cos_zero, mul_one]
  · show F64.fin (10 / Real.cosh (Real.arsinh (((50:ℝ) - 0) / 100))
        * Real.sin (atan2 (0:ℝ) 100)) = _
    rw [hphi, Real.sin_zero, mul_zero]
  · show F64.fin (10 / Real.cosh (Real.arsinh (((50:ℝ) - 0) / 100))
        * Real.sinh (Real.arsinh (((50:ℝ) - 0) / 100))) = _
    rw [harg, hsinh, hcosh]

lemma sqrt54_lb : 1.11803 ≤ Real.sqrt (5/4) := by
  have h := Real.sq_sqrt (show (0:ℝ) ≤ 5/4 by norm_num)
  have h0 := Real.sqrt_nonneg (5/4 : ℝ)
  nlinarith [h, h0]

lemma sqrt54_ub : Real.sqrt (5/4) ≤ 1.11804 := by
  have h := Real.sq_sqrt (show (0:ℝ) ≤ 5/4 by norm_num)
  have h0 := Real.sqrt_nonneg (5/4 : ℝ)
  nlinarith [h, h0]

lemma pt_bounds : 8.9442 ≤ 10 / Real.sqrt (5/4) ∧ 10 / Real.sqrt (5/4) ≤ 8.9444 := by
  have hlb := sqrt54_lb
  have hub := sqrt54_ub
  have hpos : (0:ℝ) < Real.sqrt (5/4) := lt_of_lt_of_le (by norm_num) hlb
  constructor
  · rw [le_div_iff₀ hpos]
    nlinarith
  · rw [div_le_iff₀ hpos]
    nlinarith

/-- C1: for every tower with geometry `(centerX, centerY, centerZ,
centerRadius)` (with a non-zero centre radius, so that the spec's quotient
`z_shifted / centerRadius` is meaningful), energy `E`, and finite resolved
vertex z-coordinate `vtxz`, the produced four-momentum satisfies
`phi = atan2(centerY, centerX)`, `eta = asinh((centerZ - vtxz)/centerRadius)`,
`pt = E/cosh(eta)`, `px = pt*cos(phi)`, `py = pt*sin(phi)`,
`pz = pt*sinh(eta)`, and the output energy field equals the raw tower energy
`E` (not the magnitude of `(px, py, pz)`); in particular the worked example
energy 10, centre `(100, 0, 50)`, radius 100, vertex z 0 yields
`px ≈ 8.9443`, `py ≈ 0`, `pz ≈ 4.4721`, `E_out = 10` within `1e-4` absolute
tolerance. -/
theorem c1_kinematics (input : Src) (tower : RawTower) (g : RawTowerGeom) (v : ℝ)
    (hr : g.center_radius ≠ 0) :
    ((towerToJet input (F64.fin v) tower g).px
        = F64.fin (tower.energy
            / Real.cosh (Real.arsinh ((g.center_z - v) / g.center_radius))
            * Real.cos (atan2 g.center_y g.center_x))
      ∧ (towerToJet input (F64.fin v) tower g).py
        = F64.fin (tower.energy
            / Real.cosh (Real.arsinh ((g.center_z - v) / g.center_radius))
            * Real.sin (atan2 g.center_y g.center_x))
      ∧ (towerToJet input (F64.fin v) tower g).pz
        = F64.fin (tower.energy
            / Real.cosh (Real.arsinh ((g.center_z - v) / g.center_radius))
            * Real.sinh (Real.arsinh ((g.center_z - v) / g.center_radius)))
      ∧ (towerToJet input (F64.fin v) tower g).e = tower.energy)
    ∧ (exampleJet.px.isFin = true ∧ |exampleJet.px.toReal - 8.9443| ≤ 1e-4
      ∧ exampleJet.py.isFin = true ∧ |exampleJet.py.toReal| ≤ 1e-4
      ∧ exampleJet.pz.isFin = true ∧ |exampleJet.pz.toReal - 4.4721| ≤ 1e-4
      ∧ exampleJet.e = 10) := by
  obtain ⟨hpx, hpy, hpz, he⟩ := exampleJet_eq
  obtain ⟨h1, h2⟩ := pt_bounds
  constructor
  · rw [towerToJet_fin input tower g v hr]
    exact ⟨rfl, rfl, rfl, rfl⟩
  refine ⟨?_, ?_, ?_, ?_, ?_, ?_, he⟩
  · rw [hpx]
    rfl
  · rw [hpx]
    simp only [F64.toReal]
    rw [abs_le]
    constructor <;> linarith
  · rw [hpy]
    rfl
  · rw [hpy]
    norm_num [F64.toReal]
  · rw [hpz]
    rfl
  · rw [hpz]
    simp only [F64.toReal]
    rw [abs_le]
    constructor <;> linarith

theorem c1_kinematics_witness :
    (towerToJet Src.CEMC_TOWER (F64.fin 0) ⟨0, 10⟩ ⟨100, 0, 50, 100⟩).e = 10
      ∧ |exampleJet.px.toReal - 8.9443| ≤ 1e-4 :=
  ⟨(c1_kinematics Src.CEMC_TOWER ⟨0, 10⟩ ⟨100, 0, 50, 100⟩ 0
      (show (100:ℝ) ≠ 0 by norm_num)).1.2.2.2,
   (c1_kinematics Src.CEMC_TOWER ⟨0, 10⟩ ⟨100, 0, 50, 100⟩ 0
      (show (100:ℝ) ≠ 0 by norm_num)).2.2.1⟩
